import Mathlib

set_option autoImplicit false

/-!
Verification of the gomailer library (package gomailer): a shallow embedding of
its data model, builder setters, validation (`verifyParams`), attachment
resolution, size checks and HTTP dispatch for the five provider adapters
(mailgun, sendgrid, postmark, mailjet, customerio), together with theorems
settling the specification claims.

File I/O is modelled by an explicit file system `Fs : String → Option (List Nat)`
mapping a path to its byte content when the file is readable (`os.Stat` succeeds
exactly when the file is readable, and its reported size is the byte count).
The HTTP exchange is modelled by an `Option HttpResp` parameter: `none` is a
transport error, `some r` a completed request with status code and raw body.
Go `panic` is modelled by the distinct result constructor `SendResult.panicked`
(a fatal, process-aborting outcome), while returned `error` values are
`SendResult.errored`. Performed effects are recorded as an event trace so that
ordering statements ("before any network call") are provable.
-/

/-- Byte content of readable files: `none` means `os.Stat` / `ioutil.ReadFile`
fails with an I/O error for that path. -/
abbrev Fs := String → Option (List Nat)

/-- Observable effects performed by `Send`, in order. -/
inductive Ev where
  /-- an `os.Stat` call on file `f` (the attachment size pre-check) -/
  | statF (f : String)
  /-- opening/reading file `f` (`os.Open` + `io.Copy`, or `ioutil.ReadFile`) -/
  | readF (f : String)
  /-- the single HTTP request (or external client call) -/
  | netCall
  deriving DecidableEq, Repr

/-- Errors returned (as Go `error` values) from `Send`. -/
inductive GmError where
  /-- `os.Stat` failure on file `f` -/
  | statErr (f : String)
  /-- `os.Open` failure on file `f` (mailgun multipart construction) -/
  | openErr (f : String)
  /-- `ioutil.ReadFile` failure on file `f` (`attachment.ReadFromFile`) -/
  | readErr (f : String)
  /-- an error produced by `errors.New(s)`: its message is exactly `s` -/
  | newErr (s : String)
  /-- an HTTP transport error propagated verbatim from the client -/
  | transportErr
  /-- an error returned by the external customer.io client -/
  | externalErr (s : String)
  deriving DecidableEq, Repr

/-- Outcome of a `Send` call. `panicked` models a Go `panic` (fatal,
process-aborting); `errored` a returned `error`; `sent` a `nil` return. -/
inductive SendResult where
  | panicked (msg : String)
  | errored (e : GmError)
  | sent
  deriving DecidableEq, Repr

/-- A completed HTTP response: status code and raw response body text. -/
structure HttpResp where
  status : Nat
  body : String
  deriving DecidableEq, Repr

/-- Models the Go struct `address` (mailer.go): Name, Email and the unused
Type field (kept for fidelity; the builder setters always leave it `""`).
The mailjet adapter's structurally identical `mailjetAddress` (Name, Email)
is represented by the same type. -/
structure address where
  Name : String
  Email : String
  addrType : String
  deriving DecidableEq, Repr

/-- Models `address.format` (mailer.go): `fmt.Sprintf("%s <%s>", Name, Email)`. -/
def address.format (a : address) : String :=
  a.Name ++ " <" ++ a.Email ++ ">"

/-- Models the Go struct `Configs` (mailer.go); the `RequestTimeout` duration
is a plain Nat of nanoseconds, irrelevant to all claims. -/
structure Configs where
  ServerToken : String
  AccountToken : String
  APIKey : String
  PrivateKey : String
  PublicKey : String
  BaseURL : String
  Domain : String
  Username : String
  Password : String
  RequestTimeout : Nat
  deriving DecidableEq, Repr

/-- Shared builder state of the five adapter structs (mailgun, sendgrid,
postmark, mailjet, customerio). Every adapter has the fields up to
`attachmentInlineFiles`; the reader maps exist only on sendgrid and customerio
(modelled as association lists; each Go reader is modelled by the byte list it
yields). Adapters lacking a field never touch it, so sharing one record is
faithful. `fromAddr` models the Go field `from` (a Lean keyword). -/
structure Msg where
  fromAddr : address
  toList : List address
  ccList : List address
  bccList : List address
  replyTo : address
  subject : String
  bodyText : String
  bodyHTML : String
  attachmentFiles : List String
  attachmentInlineFiles : List String
  attachmentReaders : List (String × List Nat)
  attachmentInlineReaders : List (String × List Nat)
  deriving DecidableEq, Repr

/-- The zero value of an address (all fields empty strings). -/
def emptyAddress : address := { Name := "", Email := "", addrType := "" }

/-- The zero value of the builder state, as produced by the factory. -/
def emptyMsg : Msg :=
  { fromAddr := emptyAddress, toList := [], ccList := [], bccList := []
    replyTo := emptyAddress, subject := "", bodyText := "", bodyHTML := ""
    attachmentFiles := [], attachmentInlineFiles := []
    attachmentReaders := [], attachmentInlineReaders := [] }

/-- Models the Go struct `attachment` (mailer.go). `contentType` models the
Go field `Type` (a Lean keyword). -/
structure attachment where
  Content : String
  contentType : String
  FileName : String
  ContentID : String
  Disposition : String
  Size : Nat
  deriving DecidableEq, Repr

/-- The zero value `attachment{}`. -/
def emptyAttachment : attachment :=
  { Content := "", contentType := "", FileName := "", ContentID := ""
    Disposition := "", Size := 0 }

/-! ### Standard base64 (RFC 4648), modelling `encoding/base64` StdEncoding -/

/-- The standard base64 alphabet, in value order. -/
def b64Alphabet : List Char :=
  ['A','B','C','D','E','F','G','H','I','J','K','L','M','N','O','P',
   'Q','R','S','T','U','V','W','X','Y','Z',
   'a','b','c','d','e','f','g','h','i','j','k','l','m','n','o','p',
   'q','r','s','t','u','v','w','x','y','z',
   '0','1','2','3','4','5','6','7','8','9','+','/']

/-- The alphabet character for a 6-bit value. -/
def b64Char (n : Nat) : Char := b64Alphabet.getD n '*'

/-- The 6-bit value of an alphabet character, when it is one. -/
def b64Val (c : Char) : Option Nat := b64Alphabet.indexOf? c

/-- Standard base64 encoding of a byte list, with `=` padding, exactly as
`base64.StdEncoding.EncodeToString` chunks it: three bytes to four characters,
a final chunk of one byte to two characters plus `==`, of two bytes to three
characters plus `=`. -/
def b64EncodeChunks : List Nat → List Char
  | [] => []
  | [a] => [b64Char (a / 4), b64Char (a % 4 * 16), '=', '=']
  | [a, b] => [b64Char (a / 4), b64Char (a % 4 * 16 + b / 16), b64Char (b % 16 * 4), '=']
  | a :: b :: c :: rest =>
    b64Char (a / 4) :: b64Char (a % 4 * 16 + b / 16) ::
      b64Char (b % 16 * 4 + c / 64) :: b64Char (c % 64) :: b64EncodeChunks rest

/-- Models `base64.StdEncoding.EncodeToString`. -/
def b64Encode (bs : List Nat) : String := String.mk (b64EncodeChunks bs)

/-- The standard base64 decoder (the mathematical inverse used to state the
round-trip property; the Go code only encodes). -/
def b64DecodeChunks : List Char → Option (List Nat)
  | [] => some []
  | c1 :: c2 :: c3 :: c4 :: rest =>
    (b64Val c1).bind fun v1 =>
    (b64Val c2).bind fun v2 =>
    if c3 = '=' then
      if c4 = '=' then
        if rest.isEmpty then some [v1 * 4 + v2 / 16] else none
      else none
    else
      (b64Val c3).bind fun v3 =>
      if c4 = '=' then
        if rest.isEmpty then some [v1 * 4 + v2 / 16, v2 % 16 * 16 + v3 / 4] else none
      else
        (b64Val c4).bind fun v4 =>
        (b64DecodeChunks rest).bind fun bs =>
        some ((v1 * 4 + v2 / 16) :: (v2 % 16 * 16 + v3 / 4) :: (v3 % 4 * 64 + v4) :: bs)
  | _ => none

/-! ### Path handling, modelling `path/filepath` (unix separator) -/

/-- Models `filepath.Base`: strip trailing slashes, take the part after the
last remaining slash; empty path gives ".", an all-slash path gives "/". -/
def filepathBase (p : String) : String :=
  if p = "" then "."
  else
    let stripped := ((p.data.reverse.dropWhile (fun c => c = '/')).reverse)
    let last := ((stripped.reverse.takeWhile (fun c => c ≠ '/')).reverse)
    if stripped = [] then "/" else String.mk last

/-- Helper for `filepathExt`: scan the reversed path; stop empty at a
separator, return the suffix from the last dot when one is found first. -/
def extScan : List Char → List Char → List Char
  | [], _ => []
  | c :: rest, acc =>
    if c = '/' then []
    else if c = '.' then c :: acc
    else extScan rest (c :: acc)

/-- Models `filepath.Ext`: the suffix of the final path element starting at
its last dot, or "" when the final element has no dot. -/
def filepathExt (p : String) : String := String.mk (extScan p.data.reverse [])

/-- The builtin extension table of Go's `mime` package (`builtinTypesLower`).
A deployment may extend it from system files; the claims only depend on the
MIME type being a function of the extension, with "" for unknown ones. -/
def builtinMimeTypes : List (String × String) :=
  [(".avif", "image/avif"), (".css", "text/css; charset=utf-8"),
   (".gif", "image/gif"), (".htm", "text/html; charset=utf-8"),
   (".html", "text/html; charset=utf-8"), (".jpeg", "image/jpeg"),
   (".jpg", "image/jpeg"), (".js", "text/javascript; charset=utf-8"),
   (".json", "application/json"), (".mjs", "text/javascript; charset=utf-8"),
   (".pdf", "application/pdf"), (".png", "image/png"),
   (".svg", "image/svg+xml"), (".wasm", "application/wasm"),
   (".webp", "image/webp"), (".xml", "text/xml; charset=utf-8")]

/-- Models `mime.TypeByExtension`: exact lookup, then case-insensitive
(lower-cased) lookup, "" when the extension is unrecognized. -/
def mimeTypeByExtension (ext : String) : String :=
  match builtinMimeTypes.lookup ext with
  | some t => t
  | none =>
    match builtinMimeTypes.lookup ext.toLower with
    | some t => t
    | none => ""

/-! ### Attachment resolution (mailer.go) -/

/-- Models `attachment.ReadFromFile` (mailer.go): read the file bytes (I/O
error when unreadable), base64-encode them, derive the MIME type from the
path's extension and the file name from the path's final element, and set
ContentID equal to the file name; other receiver fields are kept. -/
def attachment.ReadFromFile (fs : Fs) (path : String) (a : attachment) :
    Except GmError attachment :=
  match fs path with
  | none => .error (.readErr path)
  | some b =>
    let sEnc := b64Encode b
    let mType := mimeTypeByExtension (filepathExt path)
    let fileName := filepathBase path
    .ok { a with contentType := mType, Content := sEnc
                 FileName := fileName, ContentID := fileName }

/-- Models `attachment.ReadFromReader` (mailer.go): copy the reader (modelled
as the byte list it yields, so the copy cannot fail), record the byte count in
Size, then encode exactly like `ReadFromFile`, deriving names from the given
logical file name. -/
def attachment.ReadFromReader (f : String) (bs : List Nat) (a : attachment) :
    attachment :=
  let sEnc := b64Encode bs
  let mType := mimeTypeByExtension (filepathExt f)
  let fileName := filepathBase f
  { a with Size := bs.length, contentType := mType, Content := sEnc
           FileName := fileName, ContentID := fileName }

/-! ### Provider constants (mailgun.go, sendgrid.go, postmark, mailjet, customerio) -/

/-- mailgun.go: `mailgunMaxFileSize int64 = 25 * 1000000`. -/
def mailgunMaxFileSize : Nat := 25 * 1000000

/-- mailgun.go: `mailgunMaxReceipents = 1000`. -/
def mailgunMaxReceipents : Nat := 1000

/-- sendgrid.go: `sendgridMaxFileSize int64 = 30 * 1000000`. -/
def sendgridMaxFileSize : Nat := 30 * 1000000

/-- sendgrid.go: `sendgridMaxReceipents = 1000`. -/
def sendgridMaxReceipents : Nat := 1000

/-- postmark: `postmarkMaxFileSize int64 = 5 * 1000000`. -/
def postmarkMaxFileSize : Nat := 5 * 1000000

/-- postmark: `postmarkMaxReceipents = 50`. -/
def postmarkMaxReceipents : Nat := 50

/-- mailjet: `mailjetMaxFileSize int64 = 15 * 1000000`. -/
def mailjetMaxFileSize : Nat := 15 * 1000000

/-- mailjet: `mailjetMaxReceipents = 50`. -/
def mailjetMaxReceipents : Nat := 50

/-- customerio: `customerioMaxFileSize int64 = 30 * 1000000`. -/
def customerioMaxFileSize : Nat := 30 * 1000000

/-- customerio: `customerioMaxReceipents = 1000`. -/
def customerioMaxReceipents : Nat := 1000

/-! ### Builder setters. Each Go setter mutates the receiver and returns it;
the model maps the incoming state to the returned (updated) state. -/

/-- mailgun.From: `m.from = address{Name: name, Email: from}`. -/
def mailgunFrom (name email : String) (m : Msg) : Msg :=
  { m with fromAddr := { Name := name, Email := email, addrType := "" } }

/-- mailgun.To: appends to `toList`. -/
def mailgunTo (name toE : String) (m : Msg) : Msg :=
  { m with toList := m.toList ++ [{ Name := name, Email := toE, addrType := "" }] }

/-- mailgun.Cc: appends to `ccList`. -/
def mailgunCc (name toE : String) (m : Msg) : Msg :=
  { m with ccList := m.ccList ++ [{ Name := name, Email := toE, addrType := "" }] }

/-- mailgun.Bcc: appends to `bccList`. -/
def mailgunBcc (name toE : String) (m : Msg) : Msg :=
  { m with bccList := m.bccList ++ [{ Name := name, Email := toE, addrType := "" }] }

/-- mailgun.ReplyTo: overwrites `replyTo`. -/
def mailgunReplyTo (name email : String) (m : Msg) : Msg :=
  { m with replyTo := { Name := name, Email := email, addrType := "" } }

/-- mailgun.Subject: overwrites `subject`. -/
def mailgunSubject (subject : String) (m : Msg) : Msg := { m with subject := subject }

/-- mailgun.BodyHTML: overwrites `bodyHTML`. -/
def mailgunBodyHTML (body : String) (m : Msg) : Msg := { m with bodyHTML := body }

/-- mailgun.BodyText: overwrites `bodyText`. -/
def mailgunBodyText (body : String) (m : Msg) : Msg := { m with bodyText := body }

/-- mailgun.AttachmentFile: appends to `attachmentFiles`. -/
def mailgunAttachmentFile (file : String) (m : Msg) : Msg :=
  { m with attachmentFiles := m.attachmentFiles ++ [file] }

/-- mailgun.AttachmentInlineFile: appends to `attachmentInlineFiles`. -/
def mailgunAttachmentInlineFile (file : String) (m : Msg) : Msg :=
  { m with attachmentInlineFiles := m.attachmentInlineFiles ++ [file] }

/-- sendgrid.From. -/
def sendgridFrom (name email : String) (m : Msg) : Msg :=
  { m with fromAddr := { Name := name, Email := email, addrType := "" } }

/-- sendgrid.To: appends. -/
def sendgridTo (name toE : String) (m : Msg) : Msg :=
  { m with toList := m.toList ++ [{ Name := name, Email := toE, addrType := "" }] }

/-- sendgrid.Cc: appends. -/
def sendgridCc (name toE : String) (m : Msg) : Msg :=
  { m with ccList := m.ccList ++ [{ Name := name, Email := toE, addrType := "" }] }

/-- sendgrid.Bcc: appends. -/
def sendgridBcc (name toE : String) (m : Msg) : Msg :=
  { m with bccList := m.bccList ++ [{ Name := name, Email := toE, addrType := "" }] }

/-- sendgrid.ReplyTo: overwrites. -/
def sendgridReplyTo (name email : String) (m : Msg) : Msg :=
  { m with replyTo := { Name := name, Email := email, addrType := "" } }

/-- sendgrid.Subject: overwrites. -/
def sendgridSubject (subject : String) (m : Msg) : Msg := { m with subject := subject }

/-- sendgrid.BodyHTML: overwrites. -/
def sendgridBodyHTML (body : String) (m : Msg) : Msg := { m with bodyHTML := body }

/-- sendgrid.BodyText: overwrites. -/
def sendgridBodyText (body : String) (m : Msg) : Msg := { m with bodyText := body }

/-- sendgrid.AttachmentFile: appends. -/
def sendgridAttachmentFile (file : String) (m : Msg) : Msg :=
  { m with attachmentFiles := m.attachmentFiles ++ [file] }

/-- sendgrid.AttachmentInlineFile: appends. -/
def sendgridAttachmentInlineFile (file : String) (m : Msg) : Msg :=
  { m with attachmentInlineFiles := m.attachmentInlineFiles ++ [file] }

/-- sendgrid.AttachmentReader: `s.attachmentReaders = make(map[string]readerInfo)`
then a single insert — the fresh map discards every earlier registration. -/
def sendgridAttachmentReader (file : String) (r : List Nat) (m : Msg) : Msg :=
  { m with attachmentReaders := [(file, r)] }

/-- sendgrid.AttachmentInlineReader: fresh single-entry map, as above. -/
def sendgridAttachmentInlineReader (file : String) (r : List Nat) (m : Msg) : Msg :=
  { m with attachmentInlineReaders := [(file, r)] }

/-- postmark.From. -/
def postmarkFrom (name email : String) (m : Msg) : Msg :=
  { m with fromAddr := { Name := name, Email := email, addrType := "" } }

/-- postmark.To: appends. -/
def postmarkTo (name toE : String) (m : Msg) : Msg :=
  { m with toList := m.toList ++ [{ Name := name, Email := toE, addrType := "" }] }

/-- postmark.Cc: appends. -/
def postmarkCc (name toE : String) (m : Msg) : Msg :=
  { m with ccList := m.ccList ++ [{ Name := name, Email := toE, addrType := "" }] }

/-- postmark.Bcc: appends. -/
def postmarkBcc (name toE : String) (m : Msg) : Msg :=
  { m with bccList := m.bccList ++ [{ Name := name, Email := toE, addrType := "" }] }

/-- postmark.ReplyTo: overwrites. -/
def postmarkReplyTo (name email : String) (m : Msg) : Msg :=
  { m with replyTo := { Name := name, Email := email, addrType := "" } }

/-- postmark.Subject: overwrites. -/
def postmarkSubject (subject : String) (m : Msg) : Msg := { m with subject := subject }

/-- postmark.BodyHTML: overwrites. -/
def postmarkBodyHTML (body : String) (m : Msg) : Msg := { m with bodyHTML := body }

/-- postmark.BodyText: overwrites. -/
def postmarkBodyText (body : String) (m : Msg) : Msg := { m with bodyText := body }

/-- postmark.AttachmentFile: appends. -/
def postmarkAttachmentFile (file : String) (m : Msg) : Msg :=
  { m with attachmentFiles := m.attachmentFiles ++ [file] }

/-- postmark.AttachmentInlineFile: appends. -/
def postmarkAttachmentInlineFile (file : String) (m : Msg) : Msg :=
  { m with attachmentInlineFiles := m.attachmentInlineFiles ++ [file] }

/-- postmark.AttachmentReader: logs "gomailer: not implemented" and returns the
receiver unchanged — no byte-stream source is registered. -/
def postmarkAttachmentReader (_file : String) (_r : List Nat) (m : Msg) : Msg := m

/-- postmark.AttachmentInlineReader: logs and returns the receiver unchanged. -/
def postmarkAttachmentInlineReader (_file : String) (_r : List Nat) (m : Msg) : Msg := m

/-- mailjet.From (builds a `mailjetAddress{Name, Email}`). -/
def mailjetFrom (name email : String) (m : Msg) : Msg :=
  { m with fromAddr := { Name := name, Email := email, addrType := "" } }

/-- mailjet.To: appends. -/
def mailjetTo (name toE : String) (m : Msg) : Msg :=
  { m with toList := m.toList ++ [{ Name := name, Email := toE, addrType := "" }] }

/-- mailjet.Cc: appends. -/
def mailjetCc (name toE : String) (m : Msg) : Msg :=
  { m with ccList := m.ccList ++ [{ Name := name, Email := toE, addrType := "" }] }

/-- mailjet.Bcc: appends. -/
def mailjetBcc (name toE : String) (m : Msg) : Msg :=
  { m with bccList := m.bccList ++ [{ Name := name, Email := toE, addrType := "" }] }

/-- mailjet.ReplyTo: overwrites. -/
def mailjetReplyTo (name email : String) (m : Msg) : Msg :=
  { m with replyTo := { Name := name, Email := email, addrType := "" } }

/-- mailjet.Subject: overwrites. -/
def mailjetSubject (subject : String) (m : Msg) : Msg := { m with subject := subject }

/-- mailjet.BodyHTML: overwrites. -/
def mailjetBodyHTML (body : String) (m : Msg) : Msg := { m with bodyHTML := body }

/-- mailjet.BodyText: overwrites. -/
def mailjetBodyText (body : String) (m : Msg) : Msg := { m with bodyText := body }

/-- mailjet.AttachmentFile: appends. -/
def mailjetAttachmentFile (file : String) (m : Msg) : Msg :=
  { m with attachmentFiles := m.attachmentFiles ++ [file] }

/-- mailjet.AttachmentInlineFile: appends. -/
def mailjetAttachmentInlineFile (file : String) (m : Msg) : Msg :=
  { m with attachmentInlineFiles := m.attachmentInlineFiles ++ [file] }

/-- mailjet.AttachmentReader: logs "gomailer: not implemented" and returns the
receiver unchanged — no byte-stream source is registered. -/
def mailjetAttachmentReader (_file : String) (_r : List Nat) (m : Msg) : Msg := m

/-- mailjet.AttachmentInlineReader: logs and returns the receiver unchanged. -/
def mailjetAttachmentInlineReader (_file : String) (_r : List Nat) (m : Msg) : Msg := m

/-- customerio.From. -/
def customerioFrom (name email : String) (m : Msg) : Msg :=
  { m with fromAddr := { Name := name, Email := email, addrType := "" } }

/-- customerio.To: appends. -/
def customerioTo (name toE : String) (m : Msg) : Msg :=
  { m with toList := m.toList ++ [{ Name := name, Email := toE, addrType := "" }] }

/-- customerio.Cc: appends. -/
def customerioCc (name toE : String) (m : Msg) : Msg :=
  { m with ccList := m.ccList ++ [{ Name := name, Email := toE, addrType := "" }] }

/-- customerio.Bcc: appends. -/
def customerioBcc (name toE : String) (m : Msg) : Msg :=
  { m with bccList := m.bccList ++ [{ Name := name, Email := toE, addrType := "" }] }

/-- customerio.ReplyTo: overwrites. -/
def customerioReplyTo (name email : String) (m : Msg) : Msg :=
  { m with replyTo := { Name := name, Email := email, addrType := "" } }

/-- customerio.Subject: overwrites. -/
def customerioSubject (subject : String) (m : Msg) : Msg := { m with subject := subject }

/-- customerio.BodyHTML: overwrites. -/
def customerioBodyHTML (body : String) (m : Msg) : Msg := { m with bodyHTML := body }

/-- customerio.BodyText: overwrites. -/
def customerioBodyText (body : String) (m : Msg) : Msg := { m with bodyText := body }

/-- customerio.AttachmentFile: appends. -/
def customerioAttachmentFile (file : String) (m : Msg) : Msg :=
  { m with attachmentFiles := m.attachmentFiles ++ [file] }

/-- customerio.AttachmentInlineFile: appends. -/
def customerioAttachmentInlineFile (file : String) (m : Msg) : Msg :=
  { m with attachmentInlineFiles := m.attachmentInlineFiles ++ [file] }

/-- customerio.AttachmentReader: fresh single-entry map, discarding earlier
registrations. -/
def customerioAttachmentReader (file : String) (r : List Nat) (m : Msg) : Msg :=
  { m with attachmentReaders := [(file, r)] }

/-- customerio.AttachmentInlineReader: fresh single-entry map, as above. -/
def customerioAttachmentInlineReader (file : String) (r : List Nat) (m : Msg) : Msg :=
  { m with attachmentInlineReaders := [(file, r)] }

/-! ### Validation: the `verifyParams` methods. Each returns the panic message
when a rule is violated (the Go method panics), `none` when validation passes,
checking the rules in the source order. -/

/-- mailgun.verifyParams (mailgun.go lines 176-189). -/
def mailgunVerifyParams (_cfg : Configs) (m : Msg) : Option String :=
  if m.fromAddr.Email = "" then some "gomailer: you must provide from"
  else if m.toList.length ≤ 0 then some "gomailer: you must provide at least one receipent"
  else if m.toList.length + m.ccList.length + m.bccList.length > mailgunMaxReceipents then
    some "mailer: total number of receipents including to/cc/bcc can not be greater than 1000 for mailgun"
  else if m.bodyText = "" ∧ m.bodyHTML = "" then
    some "gomailer: you must provide a Text or HTML body"
  else none

/-- sendgrid.verifyParams (sendgrid.go lines 261-274). -/
def sendgridVerifyParams (_cfg : Configs) (m : Msg) : Option String :=
  if m.fromAddr.Email = "" then some "gomailer: you must provide from"
  else if m.toList.length ≤ 0 then some "gomailer: you must provide at least one receipent"
  else if m.toList.length + m.ccList.length + m.bccList.length > sendgridMaxReceipents then
    some "mailer: total number of receipents including to/cc/bcc can not be greater than 1000 for sendgrid"
  else if m.bodyText = "" ∧ m.bodyHTML = "" then
    some "gomailer: you must provide a Text or HTML body"
  else none

/-- postmark.verifyParams: the AccountToken/ServerToken presence check comes
first, then the shared rules. -/
def postmarkVerifyParams (cfg : Configs) (m : Msg) : Option String :=
  if cfg.AccountToken = "" ∧ cfg.ServerToken = "" then
    some "gomailer: for postmarkapp you must provide AccountToken or ServerToken in config"
  else if m.fromAddr.Email = "" then some "gomailer: you must provide from"
  else if m.toList.length ≤ 0 then some "gomailer: you must provide at least one receipent"
  else if m.toList.length + m.ccList.length + m.bccList.length > postmarkMaxReceipents then
    some "mailer: total number of receipents including to/cc/bcc can not be greater than 50 for postmark"
  else if m.bodyText = "" ∧ m.bodyHTML = "" then
    some "gomailer: you must provide a Text or HTML body"
  else none

/-- mailjet.verifyParams: the PrivateKey/PublicKey presence check comes first,
then the shared rules. -/
def mailjetVerifyParams (cfg : Configs) (m : Msg) : Option String :=
  if cfg.PrivateKey = "" ∨ cfg.PublicKey = "" then
    some "gomailer: for mailjetapp you must provide PrivateKey and PublicKey in config"
  else if m.fromAddr.Email = "" then some "gomailer: you must provide from"
  else if m.toList.length ≤ 0 then some "gomailer: you must provide at least one receipent"
  else if m.toList.length + m.ccList.length + m.bccList.length > mailjetMaxReceipents then
    some "mailer: total number of receipents including to/cc/bcc can not be greater than 50 for mailjet"
  else if m.bodyText = "" ∧ m.bodyHTML = "" then
    some "gomailer: you must provide a Text or HTML body"
  else none

/-- customerio.verifyParams. -/
def customerioVerifyParams (_cfg : Configs) (m : Msg) : Option String :=
  if m.fromAddr.Email = "" then some "gomailer: you must provide from"
  else if m.toList.length ≤ 0 then some "gomailer: you must provide at least one receipent"
  else if m.toList.length + m.ccList.length + m.bccList.length > customerioMaxReceipents then
    some "mailer: total number of receipents including to/cc/bcc can not be greater than 1000 for customerio"
  else if m.bodyText = "" ∧ m.bodyHTML = "" then
    some "gomailer: you must provide a Text or HTML body"
  else none

/-! ### The Send pipeline, shared helpers -/

/-- The `os.Stat` size-summing loop at the top of every Send: returns either
the first stat failure (with the events performed so far) or the total byte
size together with the stat events, in order. -/
def statFiles (fs : Fs) : List String → Except (GmError × List Ev) (Nat × List Ev)
  | [] => .ok (0, [])
  | f :: rest =>
    match fs f with
    | none => .error (.statErr f, [.statF f])
    | some bs =>
      match statFiles fs rest with
      | .error (e, evs) => .error (e, .statF f :: evs)
      | .ok (n, evs) => .ok (bs.length + n, .statF f :: evs)

/-- The file-open/copy loop of mailgun's multipart construction
(processMailgunRequest): each file is opened and copied into the body; the
first open failure is returned. Go iterates a two-key map (attachment, inline)
in unspecified order; the model fixes attachment files first, which no proved
statement depends on. -/
def openFiles (fs : Fs) : List String → Except (GmError × List Ev) (List Ev)
  | [] => .ok []
  | f :: rest =>
    match fs f with
    | none => .error (.openErr f, [.readF f])
    | some _ =>
      match openFiles fs rest with
      | .error (e, evs) => .error (e, .readF f :: evs)
      | .ok evs => .ok (.readF f :: evs)

/-- The per-file `attachment.ReadFromFile` build loops of sendgrid, postmark,
mailjet and customerio Send: resolves each path into an attachment with the
given Disposition, stopping at the first read failure. -/
def buildFileAttachments (fs : Fs) (disp : String) :
    List String → Except (GmError × List Ev) (List attachment × List Ev)
  | [] => .ok ([], [])
  | f :: rest =>
    match attachment.ReadFromFile fs f emptyAttachment with
    | .error e => .error (e, [.readF f])
    | .ok a =>
      match buildFileAttachments fs disp rest with
      | .error (e, evs) => .error (e, .readF f :: evs)
      | .ok (as, evs) => .ok ({ a with Disposition := disp } :: as, .readF f :: evs)

/-- The reader-map build loops (`ReadFromReader` never fails in the model):
Go iterates a map whose setter semantics leave at most one entry. -/
def buildReaderAttachments (disp : String) : List (String × List Nat) → List attachment
  | [] => []
  | (f, bs) :: rest =>
    { attachment.ReadFromReader f bs emptyAttachment with Disposition := disp } ::
      buildReaderAttachments disp rest

/-! ### Per-provider Send -/

/-- mailgun's `lists` helper: comma-joined formatted addresses ("" when empty). -/
def mailgunLists (a : List address) : String :=
  if a.length ≤ 0 then "" else String.intercalate "," (a.map address.format)

/-- The request-construction and dispatch tail of mailgun.Send
(processMailgunRequest): open and copy every attachment and inline file into
the multipart body, then build the request — `messageURL` panics here when
`Configs.Domain` is empty — then perform the HTTP call and map the response
(success status 200, any other status becomes an error carrying the raw body). -/
def mailgunRequestPhase (fs : Fs) (resp : Option HttpResp) (cfg : Configs) (m : Msg) :
    SendResult × List Ev :=
  match openFiles fs (m.attachmentFiles ++ m.attachmentInlineFiles) with
  | .error (e, evs) => (.errored e, evs)
  | .ok evs =>
    if cfg.Domain = "" then
      (.panicked "gomailer: you must provide domain name in Config", evs)
    else
      match resp with
      | none => (.errored .transportErr, evs ++ [.netCall])
      | some r =>
        if r.status ≠ 200 then (.errored (.newErr r.body), evs ++ [.netCall])
        else (.sent, evs ++ [.netCall])

/-- mailgun.Send (mailgun.go lines 126-173): verifyParams (panics on
violation), stat every attachment file summing sizes, reject totals above
`mailgunMaxFileSize` with a descriptive error, then hand off to
`processMailgunRequest`. -/
def mailgunSend (fs : Fs) (resp : Option HttpResp) (cfg : Configs) (m : Msg) :
    SendResult × List Ev :=
  match mailgunVerifyParams cfg m with
  | some p => (.panicked p, [])
  | none =>
    match statFiles fs m.attachmentFiles with
    | .error (e, evs) => (.errored e, evs)
    | .ok (totalSize, evs) =>
      if totalSize > mailgunMaxFileSize then
        (.errored (.newErr "gomailer: max attachment size for mailgun is 25MB"), evs)
      else
        let t := mailgunRequestPhase fs resp cfg m
        (t.1, evs ++ t.2)

/-- The attachment-resolution and dispatch tail of sendgrid.Send: resolve
file attachments, reader attachments, inline files and inline readers, build
the JSON params, POST and map the response (success status 202). -/
def sendgridRequestPhase (fs : Fs) (resp : Option HttpResp) (m : Msg) :
    SendResult × List Ev :=
  match buildFileAttachments fs "attachment" m.attachmentFiles with
  | .error (e, evs) => (.errored e, evs)
  | .ok (_, evs1) =>
    let _readerAtts := buildReaderAttachments "attachment" m.attachmentReaders
    match buildFileAttachments fs "inline" m.attachmentInlineFiles with
    | .error (e, evs) => (.errored e, evs1 ++ evs)
    | .ok (_, evs2) =>
      let _inlineReaderAtts := buildReaderAttachments "inline" m.attachmentInlineReaders
      match resp with
      | none => (.errored .transportErr, evs1 ++ evs2 ++ [.netCall])
      | some r =>
        if r.status ≠ 202 then (.errored (.newErr r.body), evs1 ++ evs2 ++ [.netCall])
        else (.sent, evs1 ++ evs2 ++ [.netCall])

/-- sendgrid.Send (sendgrid.go lines 138-258): verifyParams, stat the
attachment files, reject totals above `sendgridMaxFileSize`, then resolve
attachments and dispatch. -/
def sendgridSend (fs : Fs) (resp : Option HttpResp) (cfg : Configs) (m : Msg) :
    SendResult × List Ev :=
  match sendgridVerifyParams cfg m with
  | some p => (.panicked p, [])
  | none =>
    match statFiles fs m.attachmentFiles with
    | .error (e, evs) => (.errored e, evs)
    | .ok (totalSize, evs) =>
      if totalSize > sendgridMaxFileSize then
        (.errored (.newErr "gomailer: max attachment size for sendgrid is 30MB"), evs)
      else
        let t := sendgridRequestPhase fs resp m
        (t.1, evs ++ t.2)

/-- The attachment-resolution and dispatch tail of postmark.Send (success
status 200). -/
def postmarkRequestPhase (fs : Fs) (resp : Option HttpResp) (m : Msg) :
    SendResult × List Ev :=
  match buildFileAttachments fs "attachment" m.attachmentFiles with
  | .error (e, evs) => (.errored e, evs)
  | .ok (_, evs1) =>
    match buildFileAttachments fs "inline" m.attachmentInlineFiles with
    | .error (e, evs) => (.errored e, evs1 ++ evs)
    | .ok (_, evs2) =>
      match resp with
      | none => (.errored .transportErr, evs1 ++ evs2 ++ [.netCall])
      | some r =>
        if r.status ≠ 200 then (.errored (.newErr r.body), evs1 ++ evs2 ++ [.netCall])
        else (.sent, evs1 ++ evs2 ++ [.netCall])

/-- postmark.Send: verifyParams, stat the attachment files, reject totals
above `postmarkMaxFileSize`, then resolve attachments and dispatch. -/
def postmarkSend (fs : Fs) (resp : Option HttpResp) (cfg : Configs) (m : Msg) :
    SendResult × List Ev :=
  match postmarkVerifyParams cfg m with
  | some p => (.panicked p, [])
  | none =>
    match statFiles fs m.attachmentFiles with
    | .error (e, evs) => (.errored e, evs)
    | .ok (totalSize, evs) =>
      if totalSize > postmarkMaxFileSize then
        (.errored (.newErr "gomailer: max attachment size for postmark is 5MB"), evs)
      else
        let t := postmarkRequestPhase fs resp m
        (t.1, evs ++ t.2)

/-- The attachment-resolution and dispatch tail of mailjet.Send (success
status 200). -/
def mailjetRequestPhase (fs : Fs) (resp : Option HttpResp) (m : Msg) :
    SendResult × List Ev :=
  match buildFileAttachments fs "attachment" m.attachmentFiles with
  | .error (e, evs) => (.errored e, evs)
  | .ok (_, evs1) =>
    match buildFileAttachments fs "inline" m.attachmentInlineFiles with
    | .error (e, evs) => (.errored e, evs1 ++ evs)
    | .ok (_, evs2) =>
      match resp with
      | none => (.errored .transportErr, evs1 ++ evs2 ++ [.netCall])
      | some r =>
        if r.status ≠ 200 then (.errored (.newErr r.body), evs1 ++ evs2 ++ [.netCall])
        else (.sent, evs1 ++ evs2 ++ [.netCall])

/-- mailjet.Send: verifyParams, then the size pre-check stats the list
`totalFiles`, which the source builds by appending `m.attachmentFiles` twice
(`totalFiles = append(totalFiles, m.attachmentFiles...)` on two consecutive
lines), so every attachment file is stat'ed and counted twice and inline files
are never counted; totals above `mailjetMaxFileSize` are rejected; then
attachments are resolved and dispatched. -/
def mailjetSend (fs : Fs) (resp : Option HttpResp) (cfg : Configs) (m : Msg) :
    SendResult × List Ev :=
  match mailjetVerifyParams cfg m with
  | some p => (.panicked p, [])
  | none =>
    match statFiles fs (m.attachmentFiles ++ m.attachmentFiles) with
    | .error (e, evs) => (.errored e, evs)
    | .ok (totalSize, evs) =>
      if totalSize > mailjetMaxFileSize then
        (.errored (.newErr "gomailer: max attachment size for mailjet is 15MB"), evs)
      else
        let t := mailjetRequestPhase fs resp m
        (t.1, evs ++ t.2)

/-- customerio's `lists` helper: comma-joined formatted addresses ("" when
empty). -/
def cioLists (a : List address) : String :=
  if a.length ≤ 0 then "" else String.intercalate "," (a.map address.format)

/-- The customer.io `SendEmailRequest` fields this adapter populates.
Identifiers and Attachments are Go maps, modelled as association lists with
insertion overwriting an existing key. -/
structure CioRequest where
  From : String
  To : String
  Subject : String
  Identifiers : List (String × String)
  BCC : String
  ReplyTo : String
  PlaintextBody : String
  Body : String
  Attachments : List (String × String)
  deriving DecidableEq, Repr

/-- Go map insertion on an association list: overwrite the key when present,
append otherwise. -/
def assocPut (k v : String) (l : List (String × String)) : List (String × String) :=
  if l.any (fun p => p.1 = k) then
    l.map (fun p => if p.1 = k then (k, v) else p)
  else l ++ [(k, v)]

/-- The `files[a.FileName] = a.Content` loop of customerio.Send. -/
def cioAttachmentsMap (atts : List attachment) : List (String × String) :=
  atts.foldl (fun acc a => assocPut a.FileName a.Content acc) []

/-- The request-building block of customerio.Send (lines 186-222): the base
request holds From, To, Subject and a fresh uuid identifier; a non-empty cc
list writes its formatted value into the BCC field; a non-empty bcc list then
overwrites the same BCC field; reply-to and the two bodies are set when
non-empty; a non-empty resolved-attachment list fills the filename-to-content
map. -/
def customerioBuildRequest (uid : String) (m : Msg) (atts : List attachment) :
    CioRequest :=
  let req : CioRequest :=
    { From := m.fromAddr.format, To := cioLists m.toList, Subject := m.subject
      Identifiers := [("id", uid)], BCC := "", ReplyTo := ""
      PlaintextBody := "", Body := "", Attachments := [] }
  let req := if m.ccList.length > 0 then { req with BCC := cioLists m.ccList } else req
  let req := if m.bccList.length > 0 then { req with BCC := cioLists m.bccList } else req
  let req := if m.replyTo.Email ≠ "" then { req with ReplyTo := m.replyTo.format } else req
  let req := if m.bodyText ≠ "" then { req with PlaintextBody := m.bodyText } else req
  let req := if m.bodyHTML ≠ "" then { req with Body := m.bodyHTML } else req
  let req := if atts.length > 0 then { req with Attachments := cioAttachmentsMap atts } else req
  req

/-- customerio.Send: verifyParams, stat the attachment files, reject totals
above `customerioMaxFileSize`, resolve the four attachment sources, build the
provider request and delegate to the external customer.io client, whose
outcome (`none` success, `some e` an error) the model takes as a parameter,
as it does the fresh uuid. -/
def customerioSend (fs : Fs) (cio : Option String) (uid : String)
    (cfg : Configs) (m : Msg) : SendResult × List Ev :=
  match customerioVerifyParams cfg m with
  | some p => (.panicked p, [])
  | none =>
    match statFiles fs m.attachmentFiles with
    | .error (e, evs) => (.errored e, evs)
    | .ok (totalSize, evs) =>
      if totalSize > customerioMaxFileSize then
        (.errored (.newErr "gomailer: max attachment size for customerio is 30MB"), evs)
      else
        match buildFileAttachments fs "attachment" m.attachmentFiles with
        | .error (e, evs2) => (.errored e, evs ++ evs2)
        | .ok (as1, evs2) =>
          let as2 := buildReaderAttachments "attachment" m.attachmentReaders
          match buildFileAttachments fs "inline" m.attachmentInlineFiles with
          | .error (e, evs3) => (.errored e, evs ++ evs2 ++ evs3)
          | .ok (as3, evs3) =>
            let as4 := buildReaderAttachments "inline" m.attachmentInlineReaders
            let _req := customerioBuildRequest uid m (as1 ++ as2 ++ as3 ++ as4)
            match cio with
            | some e => (.errored (.externalErr e), evs ++ evs2 ++ evs3 ++ [.netCall])
            | none => (.sent, evs ++ evs2 ++ evs3 ++ [.netCall])

/-! ### The factory (mailer.go) -/

/-- mailer.go driver constant MAILGUN: in the const block, iota is 0 at
`defaultTimeout` and 1 at the discarded `_ driver = iota` spec, so the named
drivers take the values 2 through 6. -/
def MAILGUN_DRIVER : Nat := 2

/-- mailer.go driver constant SENDGRID. -/
def SENDGRID_DRIVER : Nat := 3

/-- mailer.go driver constant POSTMARK. -/
def POSTMARK_DRIVER : Nat := 4

/-- mailer.go driver constant MAILJET. -/
def MAILJET_DRIVER : Nat := 5

/-- mailer.go driver constant CUSTOMERIO. -/
def CUSTOMERIO_DRIVER : Nat := 6

/-- The value returned by the factory: one adapter per provider, holding its
Configs (the embedded http client keeps `Configs.RequestTimeout`). -/
inductive MailerImpl where
  | mailgunM (cfg : Configs)
  | mailjetM (cfg : Configs)
  | sendgridM (cfg : Configs)
  | postmarkM (cfg : Configs)
  | customerioM (cfg : Configs)
  deriving DecidableEq, Repr

/-- mailer.go `mailFactory` (lines 157-202): the switch over the driver
returns the provider adapter for the five named constants and the
unsupported-driver error for every other value. -/
def mailFactory (d : Nat) (c : Configs) : Except String MailerImpl :=
  if d = MAILGUN_DRIVER then .ok (.mailgunM c)
  else if d = MAILJET_DRIVER then .ok (.mailjetM c)
  else if d = SENDGRID_DRIVER then .ok (.sendgridM c)
  else if d = POSTMARK_DRIVER then .ok (.postmarkM c)
  else if d = CUSTOMERIO_DRIVER then .ok (.customerioM c)
  else .error "gomailer: unsupported mail driver"


/-! ### Concrete inputs used by counterexamples and witnesses -/

/-- A configuration with every credential present and a non-empty domain. -/
def cfgWitness : Configs :=
  { ServerToken := "st", AccountToken := "at", APIKey := "key"
    PrivateKey := "priv", PublicKey := "pub", BaseURL := ""
    Domain := "mail.example.com", Username := "", Password := ""
    RequestTimeout := 0 }

/-- A configuration with no credentials at all (and no domain). -/
def cfgBare : Configs :=
  { ServerToken := "", AccountToken := "", APIKey := ""
    PrivateKey := "", PublicKey := "", BaseURL := ""
    Domain := "", Username := "", Password := "", RequestTimeout := 0 }

/-- An otherwise-valid message with a single recipient, a text body and one
attachment file reference "big.bin". -/
def msgOneAttachment : Msg :=
  { emptyMsg with
    fromAddr := { Name := "sender", Email := "sender@example.com", addrType := "" }
    toList := [{ Name := "rcpt", Email := "rcpt@example.com", addrType := "" }]
    bodyText := "hello"
    attachmentFiles := ["big.bin"] }

/-- A file system on which every path reads as a single 7500001-byte file. -/
def fsBig : Fs := fun _ => some (List.replicate 7500001 0)

/-- A file system on which every path reads as the three bytes 1, 2, 3. -/
def fsSmall : Fs := fun _ => some [1, 2, 3]

/-- A file system with exactly one readable file, "files/hello.txt",
holding the two bytes of "hi". -/
def fsHello : Fs := fun p => if p = "files/hello.txt" then some [104, 105] else none

/-- An otherwise-valid message with n identical recipients and a text body. -/
def msgRecipients (n : Nat) : Msg :=
  { emptyMsg with
    fromAddr := { Name := "sender", Email := "sender@example.com", addrType := "" }
    toList := List.replicate n { Name := "r", Email := "r@example.com", addrType := "" }
    bodyText := "hello" }

/-! ## Theorems -/

theorem b64Val_b64Char_fin : ∀ n : Fin 64, b64Val (b64Char n.val) = some n.val := by decide

theorem b64Char_ne_pad_fin : ∀ n : Fin 64, b64Char n.val ≠ '=' := by decide

theorem b64Val_b64Char (n : Nat) (h : n < 64) : b64Val (b64Char n) = some n :=
  b64Val_b64Char_fin ⟨n, h⟩

theorem b64Char_ne_pad (n : Nat) (h : n < 64) : b64Char n ≠ '=' :=
  b64Char_ne_pad_fin ⟨n, h⟩

/-- Base64 round trip: decoding an encoded byte list (all bytes below 256)
returns exactly the original bytes. -/
theorem b64_roundtrip (bs : List Nat) (h : ∀ x ∈ bs, x < 256) :
    b64DecodeChunks (b64EncodeChunks bs) = some bs := by
  induction bs using b64EncodeChunks.induct with
  | case1 => simp [b64EncodeChunks, b64DecodeChunks]
  | case2 a =>
    have ha : a < 256 := h a (by simp)
    simp only [b64EncodeChunks, b64DecodeChunks,
      b64Val_b64Char (a / 4) (by omega),
      b64Val_b64Char (a % 4 * 16) (by omega),
      Option.some_bind, if_pos rfl, List.isEmpty_nil, if_true,
      Option.some.injEq, List.cons.injEq, and_true]
    omega
  | case3 a b =>
    have ha : a < 256 := h a (by simp)
    have hb : b < 256 := h b (by simp)
    simp only [b64EncodeChunks, b64DecodeChunks,
      b64Val_b64Char (a / 4) (by omega),
      b64Val_b64Char (a % 4 * 16 + b / 16) (by omega),
      b64Val_b64Char (b % 16 * 4) (by omega),
      Option.some_bind, if_neg (b64Char_ne_pad (b % 16 * 4) (by omega)),
      if_pos rfl, List.isEmpty_nil, if_true,
      Option.some.injEq, List.cons.injEq, and_true]
    constructor <;> omega
  | case4 a b c rest ih =>
    have ha : a < 256 := h a (by simp)
    have hb : b < 256 := h b (by simp)
    have hc : c < 256 := h c (by simp)
    have hrest : ∀ x ∈ rest, x < 256 := fun x hx => h x (by simp [hx])
    simp only [b64EncodeChunks, b64DecodeChunks,
      b64Val_b64Char (a / 4) (by omega),
      b64Val_b64Char (a % 4 * 16 + b / 16) (by omega),
      b64Val_b64Char (b % 16 * 4 + c / 64) (by omega),
      b64Val_b64Char (c % 64) (by omega),
      Option.some_bind,
      if_neg (b64Char_ne_pad (b % 16 * 4 + c / 64) (by omega)),
      if_neg (b64Char_ne_pad (c % 64) (by omega)),
      ih hrest,
      Option.some.injEq, List.cons.injEq]
    exact ⟨by omega, by omega, by omega, trivial⟩


/-- C9: for every adapter, each builder setter returns the (mutated) adapter
itself; To, Cc and Bcc append to their ordered lists, so repeated calls
accumulate, duplicates included and order preserved, while From, ReplyTo,
Subject, BodyHTML and BodyText overwrite any previously set value. -/
theorem c9_builder_setters :
    ∀ (m : Msg) (n e s : String),
      mailgunFrom n e m = { m with fromAddr := { Name := n, Email := e, addrType := "" } } ∧
      mailgunTo n e m = { m with toList := m.toList ++ [{ Name := n, Email := e, addrType := "" }] } ∧
      mailgunCc n e m = { m with ccList := m.ccList ++ [{ Name := n, Email := e, addrType := "" }] } ∧
      mailgunBcc n e m = { m with bccList := m.bccList ++ [{ Name := n, Email := e, addrType := "" }] } ∧
      mailgunReplyTo n e m = { m with replyTo := { Name := n, Email := e, addrType := "" } } ∧
      mailgunSubject s m = { m with subject := s } ∧
      mailgunBodyHTML s m = { m with bodyHTML := s } ∧
      mailgunBodyText s m = { m with bodyText := s } ∧
      sendgridFrom n e m = { m with fromAddr := { Name := n, Email := e, addrType := "" } } ∧
      sendgridTo n e m = { m with toList := m.toList ++ [{ Name := n, Email := e, addrType := "" }] } ∧
      sendgridCc n e m = { m with ccList := m.ccList ++ [{ Name := n, Email := e, addrType := "" }] } ∧
      sendgridBcc n e m = { m with bccList := m.bccList ++ [{ Name := n, Email := e, addrType := "" }] } ∧
      sendgridReplyTo n e m = { m with replyTo := { Name := n, Email := e, addrType := "" } } ∧
      sendgridSubject s m = { m with subject := s } ∧
      sendgridBodyHTML s m = { m with bodyHTML := s } ∧
      sendgridBodyText s m = { m with bodyText := s } ∧
      postmarkFrom n e m = { m with fromAddr := { Name := n, Email := e, addrType := "" } } ∧
      postmarkTo n e m = { m with toList := m.toList ++ [{ Name := n, Email := e, addrType := "" }] } ∧
      postmarkCc n e m = { m with ccList := m.ccList ++ [{ Name := n, Email := e, addrType := "" }] } ∧
      postmarkBcc n e m = { m with bccList := m.bccList ++ [{ Name := n, Email := e, addrType := "" }] } ∧
      postmarkReplyTo n e m = { m with replyTo := { Name := n, Email := e, addrType := "" } } ∧
      postmarkSubject s m = { m with subject := s } ∧
      postmarkBodyHTML s m = { m with bodyHTML := s } ∧
      postmarkBodyText s m = { m with bodyText := s } ∧
      mailjetFrom n e m = { m with fromAddr := { Name := n, Email := e, addrType := "" } } ∧
      mailjetTo n e m = { m with toList := m.toList ++ [{ Name := n, Email := e, addrType := "" }] } ∧
      mailjetCc n e m = { m with ccList := m.ccList ++ [{ Name := n, Email := e, addrType := "" }] } ∧
      mailjetBcc n e m = { m with bccList := m.bccList ++ [{ Name := n, Email := e, addrType := "" }] } ∧
      mailjetReplyTo n e m = { m with replyTo := { Name := n, Email := e, addrType := "" } } ∧
      mailjetSubject s m = { m with subject := s } ∧
      mailjetBodyHTML s m = { m with bodyHTML := s } ∧
      mailjetBodyText s m = { m with bodyText := s } ∧
      customerioFrom n e m = { m with fromAddr := { Name := n, Email := e, addrType := "" } } ∧
      customerioTo n e m = { m with toList := m.toList ++ [{ Name := n, Email := e, addrType := "" }] } ∧
      customerioCc n e m = { m with ccList := m.ccList ++ [{ Name := n, Email := e, addrType := "" }] } ∧
      customerioBcc n e m = { m with bccList := m.bccList ++ [{ Name := n, Email := e, addrType := "" }] } ∧
      customerioReplyTo n e m = { m with replyTo := { Name := n, Email := e, addrType := "" } } ∧
      customerioSubject s m = { m with subject := s } ∧
      customerioBodyHTML s m = { m with bodyHTML := s } ∧
      customerioBodyText s m = { m with bodyText := s } := by
  intro m n e s
  and_intros <;> rfl

/-- C6 counterexample: the claim says every adapter's AttachmentReader and
AttachmentInlineReader register a named byte-stream source on the message
state, but mailjet's and postmark's are unimplemented no-ops: called on the
empty builder state they leave it unchanged, with both reader registries still
empty, so no source is registered. -/
theorem c6_counterexample :
    mailjetAttachmentReader "data.txt" [1, 2, 3] emptyMsg = emptyMsg ∧
    mailjetAttachmentInlineReader "data.txt" [1, 2, 3] emptyMsg = emptyMsg ∧
    postmarkAttachmentReader "data.txt" [1, 2, 3] emptyMsg = emptyMsg ∧
    postmarkAttachmentInlineReader "data.txt" [1, 2, 3] emptyMsg = emptyMsg ∧
    emptyMsg.attachmentReaders = [] ∧ emptyMsg.attachmentInlineReaders = [] :=
  ⟨rfl, rfl, rfl, rfl, rfl, rfl⟩

/-- C6 amended: for every adapter, AttachmentFile and AttachmentInlineFile
append a file-path reference (multiple calls accumulate); AttachmentReader and
AttachmentInlineReader register a named byte-stream source only on sendgrid
and customerio, where each call replaces the registry with a fresh
single-entry map so only the most recent reader is retained, while mailjet's
and postmark's reader setters are unimplemented no-ops that leave the state
unchanged (mailgun's reader setters are not part of the sources examined). -/
theorem c6_attachment_setters :
    ∀ (m : Msg) (f : String) (r : List Nat),
      mailgunAttachmentFile f m = { m with attachmentFiles := m.attachmentFiles ++ [f] } ∧
      mailgunAttachmentInlineFile f m = { m with attachmentInlineFiles := m.attachmentInlineFiles ++ [f] } ∧
      sendgridAttachmentFile f m = { m with attachmentFiles := m.attachmentFiles ++ [f] } ∧
      sendgridAttachmentInlineFile f m = { m with attachmentInlineFiles := m.attachmentInlineFiles ++ [f] } ∧
      postmarkAttachmentFile f m = { m with attachmentFiles := m.attachmentFiles ++ [f] } ∧
      postmarkAttachmentInlineFile f m = { m with attachmentInlineFiles := m.attachmentInlineFiles ++ [f] } ∧
      mailjetAttachmentFile f m = { m with attachmentFiles := m.attachmentFiles ++ [f] } ∧
      mailjetAttachmentInlineFile f m = { m with attachmentInlineFiles := m.attachmentInlineFiles ++ [f] } ∧
      customerioAttachmentFile f m = { m with attachmentFiles := m.attachmentFiles ++ [f] } ∧
      customerioAttachmentInlineFile f m = { m with attachmentInlineFiles := m.attachmentInlineFiles ++ [f] } ∧
      sendgridAttachmentReader f r m = { m with attachmentReaders := [(f, r)] } ∧
      sendgridAttachmentInlineReader f r m = { m with attachmentInlineReaders := [(f, r)] } ∧
      customerioAttachmentReader f r m = { m with attachmentReaders := [(f, r)] } ∧
      customerioAttachmentInlineReader f r m = { m with attachmentInlineReaders := [(f, r)] } ∧
      mailjetAttachmentReader f r m = m ∧
      mailjetAttachmentInlineReader f r m = m ∧
      postmarkAttachmentReader f r m = m ∧
      postmarkAttachmentInlineReader f r m = m := by
  intro m f r
  and_intros <;> rfl

/-- C10: the factory returns the matching provider adapter for each of the
five recognized driver identifiers and fails with the unsupported-driver
error for every other identifier. -/
theorem c10_mail_factory :
    ∀ c : Configs,
      mailFactory MAILGUN_DRIVER c = .ok (.mailgunM c) ∧
      mailFactory SENDGRID_DRIVER c = .ok (.sendgridM c) ∧
      mailFactory POSTMARK_DRIVER c = .ok (.postmarkM c) ∧
      mailFactory MAILJET_DRIVER c = .ok (.mailjetM c) ∧
      mailFactory CUSTOMERIO_DRIVER c = .ok (.customerioM c) ∧
      ∀ d : Nat,
        d ∉ [MAILGUN_DRIVER, SENDGRID_DRIVER, POSTMARK_DRIVER,
             MAILJET_DRIVER, CUSTOMERIO_DRIVER] →
        mailFactory d c = .error "gomailer: unsupported mail driver" := by
  intro c
  refine ⟨rfl, rfl, rfl, rfl, rfl, ?_⟩
  intro d hd
  simp only [List.mem_cons, List.mem_singleton, not_or] at hd
  obtain ⟨h1, h2, h3, h4, h5, _⟩ := hd
  simp only [mailFactory, MAILGUN_DRIVER, SENDGRID_DRIVER, POSTMARK_DRIVER,
    MAILJET_DRIVER, CUSTOMERIO_DRIVER] at h1 h2 h3 h4 h5 ⊢
  rw [if_neg h1, if_neg h4, if_neg h2, if_neg h3, if_neg h5]

/-- C10 witness: on a concrete configuration, the unrecognized driver value 42
yields the unsupported-driver error. -/
theorem c10_mail_factory_witness :
    mailFactory 42 cfgWitness = .error "gomailer: unsupported mail driver" :=
  (c10_mail_factory cfgWitness).2.2.2.2.2 42 (by decide)

/-- C8: customerio.Send writes the formatted Cc list into the outgoing
request's BCC field; whenever at least one Bcc recipient is set, that same
field is overwritten with the formatted Bcc list, so a message carrying both
Cc and Bcc recipients produces a request identical to one built without any
Cc recipients — the Cc recipients appear nowhere in it. -/
theorem c8_customerio_cc_shadowed :
    ∀ (uid : String) (m : Msg) (atts : List attachment),
      (m.ccList.length > 0 → m.bccList.length = 0 →
        (customerioBuildRequest uid m atts).BCC = cioLists m.ccList) ∧
      (m.bccList.length > 0 →
        (customerioBuildRequest uid m atts).BCC = cioLists m.bccList) ∧
      (m.bccList.length > 0 →
        customerioBuildRequest uid m atts =
          customerioBuildRequest uid { m with ccList := [] } atts) := by
  intro uid m atts
  refine ⟨?_, ?_, ?_⟩
  · intro hcc hbcc
    simp only [customerioBuildRequest, if_pos hcc, hbcc, gt_iff_lt,
      lt_self_iff_false, if_false]
    split_ifs <;> simp
  · intro hbcc
    simp only [customerioBuildRequest, if_pos hbcc]
    split_ifs <;> simp
  · intro hbcc
    simp only [customerioBuildRequest, if_pos hbcc]
    split_ifs <;> simp

/-- C8 witness: a concrete message with one Cc and one Bcc recipient yields a
request whose BCC field holds the Bcc list and which equals the request built
from the same message stripped of its Cc recipients. -/
theorem c8_customerio_cc_shadowed_witness :
    (customerioBuildRequest "uuid-1"
      { msgOneAttachment with
        ccList := [{ Name := "c", Email := "c@example.com", addrType := "" }]
        bccList := [{ Name := "b", Email := "b@example.com", addrType := "" }] } []).BCC =
      cioLists [{ Name := "b", Email := "b@example.com", addrType := "" }] ∧
    customerioBuildRequest "uuid-1"
      { msgOneAttachment with
        ccList := [{ Name := "c", Email := "c@example.com", addrType := "" }]
        bccList := [{ Name := "b", Email := "b@example.com", addrType := "" }] } [] =
    customerioBuildRequest "uuid-1"
      { msgOneAttachment with
        ccList := []
        bccList := [{ Name := "b", Email := "b@example.com", addrType := "" }] } [] :=
  ⟨(c8_customerio_cc_shadowed "uuid-1" _ []).2.1 (by decide),
   (c8_customerio_cc_shadowed "uuid-1" _ []).2.2 (by decide)⟩

/-- C2: for every provider, with the other validation rules satisfied,
validation of the recipient ceiling is exact: it passes exactly when the
combined to+cc+bcc count is at most the provider's limit (1000 for mailgun,
sendgrid and customerio; 50 for postmark and mailjet), so a count equal to the
limit passes and a count over it fails. -/
theorem c2_recipient_ceilings_exact (cfg : Configs) (m : Msg)
    (hfrom : m.fromAddr.Email ≠ "") (hto : m.toList ≠ [])
    (hbody : ¬(m.bodyText = "" ∧ m.bodyHTML = "")) :
    (mailgunVerifyParams cfg m = none ↔
      m.toList.length + m.ccList.length + m.bccList.length ≤ mailgunMaxReceipents) ∧
    (sendgridVerifyParams cfg m = none ↔
      m.toList.length + m.ccList.length + m.bccList.length ≤ sendgridMaxReceipents) ∧
    (customerioVerifyParams cfg m = none ↔
      m.toList.length + m.ccList.length + m.bccList.length ≤ customerioMaxReceipents) ∧
    (¬(cfg.AccountToken = "" ∧ cfg.ServerToken = "") →
      (postmarkVerifyParams cfg m = none ↔
        m.toList.length + m.ccList.length + m.bccList.length ≤ postmarkMaxReceipents)) ∧
    (¬(cfg.PrivateKey = "" ∨ cfg.PublicKey = "") →
      (mailjetVerifyParams cfg m = none ↔
        m.toList.length + m.ccList.length + m.bccList.length ≤ mailjetMaxReceipents)) := by
  have hto' : ¬(m.toList.length ≤ 0) := by
    have := List.length_pos.mpr hto
    omega
  refine ⟨?_, ?_, ?_, fun htok => ?_, fun hkeys => ?_⟩
  · unfold mailgunVerifyParams
    rw [if_neg hfrom, if_neg hto']
    by_cases hc : m.toList.length + m.ccList.length + m.bccList.length > mailgunMaxReceipents
    · rw [if_pos hc]
      exact ⟨fun h => absurd h (by simp), fun h => absurd hc (by omega)⟩
    · rw [if_neg hc, if_neg hbody]
      exact ⟨fun _ => by omega, fun _ => rfl⟩
  · unfold sendgridVerifyParams
    rw [if_neg hfrom, if_neg hto']
    by_cases hc : m.toList.length + m.ccList.length + m.bccList.length > sendgridMaxReceipents
    · rw [if_pos hc]
      exact ⟨fun h => absurd h (by simp), fun h => absurd hc (by omega)⟩
    · rw [if_neg hc, if_neg hbody]
      exact ⟨fun _ => by omega, fun _ => rfl⟩
  · unfold customerioVerifyParams
    rw [if_neg hfrom, if_neg hto']
    by_cases hc : m.toList.length + m.ccList.length + m.bccList.length > customerioMaxReceipents
    · rw [if_pos hc]
      exact ⟨fun h => absurd h (by simp), fun h => absurd hc (by omega)⟩
    · rw [if_neg hc, if_neg hbody]
      exact ⟨fun _ => by omega, fun _ => rfl⟩
  · unfold postmarkVerifyParams
    rw [if_neg htok, if_neg hfrom, if_neg hto']
    by_cases hc : m.toList.length + m.ccList.length + m.bccList.length > postmarkMaxReceipents
    · rw [if_pos hc]
      exact ⟨fun h => absurd h (by simp), fun h => absurd hc (by omega)⟩
    · rw [if_neg hc, if_neg hbody]
      exact ⟨fun _ => by omega, fun _ => rfl⟩
  · unfold mailjetVerifyParams
    rw [if_neg hkeys, if_neg hfrom, if_neg hto']
    by_cases hc : m.toList.length + m.ccList.length + m.bccList.length > mailjetMaxReceipents
    · rw [if_pos hc]
      exact ⟨fun h => absurd h (by simp), fun h => absurd hc (by omega)⟩
    · rw [if_neg hc, if_neg hbody]
      exact ⟨fun _ => by omega, fun _ => rfl⟩

set_option maxRecDepth 100000 in
/-- C2 witness: 50 recipients pass postmark validation and 1000 pass mailgun
validation (counts equal to the ceilings), while 51 fail postmark and 1001
fail mailgun (one over). -/
theorem c2_recipient_ceilings_witness :
    postmarkVerifyParams cfgWitness (msgRecipients 50) = none ∧
    mailgunVerifyParams cfgWitness (msgRecipients 1000) = none ∧
    postmarkVerifyParams cfgWitness (msgRecipients 51) ≠ none ∧
    mailgunVerifyParams cfgWitness (msgRecipients 1001) ≠ none := by
  refine ⟨?_, ?_, ?_, ?_⟩
  · exact ((c2_recipient_ceilings_exact cfgWitness (msgRecipients 50) (by decide)
      (by simp [msgRecipients, emptyMsg]) (by decide)).2.2.2.1 (by decide)).mpr
      (by simp [msgRecipients, emptyMsg, postmarkMaxReceipents])
  · exact ((c2_recipient_ceilings_exact cfgWitness (msgRecipients 1000) (by decide)
      (by simp [msgRecipients, emptyMsg]) (by decide)).1).mpr
      (by simp [msgRecipients, emptyMsg, mailgunMaxReceipents])
  · intro h
    have := ((c2_recipient_ceilings_exact cfgWitness (msgRecipients 51) (by decide)
      (by simp [msgRecipients, emptyMsg]) (by decide)).2.2.2.1 (by decide)).mp h
    simp [msgRecipients, emptyMsg, postmarkMaxReceipents] at this
  · intro h
    have := ((c2_recipient_ceilings_exact cfgWitness (msgRecipients 1001) (by decide)
      (by simp [msgRecipients, emptyMsg]) (by decide)).1).mp h
    simp [msgRecipients, emptyMsg, mailgunMaxReceipents] at this

/-- A deficient message (no sender, no recipients, or no body) never passes
mailgun.verifyParams. -/
theorem mailgunVerify_fails (cfg : Configs) (m : Msg)
    (hdef : m.fromAddr.Email = "" ∨ m.toList = [] ∨ (m.bodyText = "" ∧ m.bodyHTML = "")) :
    ∃ p, mailgunVerifyParams cfg m = some p := by
  unfold mailgunVerifyParams
  split_ifs with h1 h2 h3 h4
  · exact ⟨_, rfl⟩
  · exact ⟨_, rfl⟩
  · exact ⟨_, rfl⟩
  · exact ⟨_, rfl⟩
  · rcases hdef with h | h | h
    · exact absurd h h1
    · exact absurd (by simp [h]) h2
    · exact absurd h h4

/-- A deficient message never passes sendgrid.verifyParams. -/
theorem sendgridVerify_fails (cfg : Configs) (m : Msg)
    (hdef : m.fromAddr.Email = "" ∨ m.toList = [] ∨ (m.bodyText = "" ∧ m.bodyHTML = "")) :
    ∃ p, sendgridVerifyParams cfg m = some p := by
  unfold sendgridVerifyParams
  split_ifs with h1 h2 h3 h4
  · exact ⟨_, rfl⟩
  · exact ⟨_, rfl⟩
  · exact ⟨_, rfl⟩
  · exact ⟨_, rfl⟩
  · rcases hdef with h | h | h
    · exact absurd h h1
    · exact absurd (by simp [h]) h2
    · exact absurd h h4

/-- A deficient message never passes postmark.verifyParams. -/
theorem postmarkVerify_fails (cfg : Configs) (m : Msg)
    (hdef : m.fromAddr.Email = "" ∨ m.toList = [] ∨ (m.bodyText = "" ∧ m.bodyHTML = "")) :
    ∃ p, postmarkVerifyParams cfg m = some p := by
  unfold postmarkVerifyParams
  split_ifs with h0 h1 h2 h3 h4
  · exact ⟨_, rfl⟩
  · exact ⟨_, rfl⟩
  · exact ⟨_, rfl⟩
  · exact ⟨_, rfl⟩
  · exact ⟨_, rfl⟩
  · rcases hdef with h | h | h
    · exact absurd h h1
    · exact absurd (by simp [h]) h2
    · exact absurd h h4

/-- A deficient message never passes mailjet.verifyParams. -/
theorem mailjetVerify_fails (cfg : Configs) (m : Msg)
    (hdef : m.fromAddr.Email = "" ∨ m.toList = [] ∨ (m.bodyText = "" ∧ m.bodyHTML = "")) :
    ∃ p, mailjetVerifyParams cfg m = some p := by
  unfold mailjetVerifyParams
  split_ifs with h0 h1 h2 h3 h4
  · exact ⟨_, rfl⟩
  · exact ⟨_, rfl⟩
  · exact ⟨_, rfl⟩
  · exact ⟨_, rfl⟩
  · exact ⟨_, rfl⟩
  · rcases hdef with h | h | h
    · exact absurd h h1
    · exact absurd (by simp [h]) h2
    · exact absurd h h4

/-- A deficient message never passes customerio.verifyParams. -/
theorem customerioVerify_fails (cfg : Configs) (m : Msg)
    (hdef : m.fromAddr.Email = "" ∨ m.toList = [] ∨ (m.bodyText = "" ∧ m.bodyHTML = "")) :
    ∃ p, customerioVerifyParams cfg m = some p := by
  unfold customerioVerifyParams
  split_ifs with h1 h2 h3 h4
  · exact ⟨_, rfl⟩
  · exact ⟨_, rfl⟩
  · exact ⟨_, rfl⟩
  · exact ⟨_, rfl⟩
  · rcases hdef with h | h | h
    · exact absurd h h1
    · exact absurd (by simp [h]) h2
    · exact absurd h h4

/-- C4: for every provider, a Send on a message with no sender address, or
with zero to recipients, or with both bodies empty, aborts with a panic — a
fatal, process-aborting outcome distinct from a returned error — having
performed no file I/O and no network call (the event trace is empty). -/
theorem c4_invalid_message_panics (fs : Fs) (resp : Option HttpResp)
    (cio : Option String) (uid : String) (cfg : Configs) (m : Msg)
    (hdef : m.fromAddr.Email = "" ∨ m.toList = [] ∨ (m.bodyText = "" ∧ m.bodyHTML = "")) :
    (∃ p, mailgunSend fs resp cfg m = (.panicked p, [])) ∧
    (∃ p, sendgridSend fs resp cfg m = (.panicked p, [])) ∧
    (∃ p, postmarkSend fs resp cfg m = (.panicked p, [])) ∧
    (∃ p, mailjetSend fs resp cfg m = (.panicked p, [])) ∧
    (∃ p, customerioSend fs cio uid cfg m = (.panicked p, [])) := by
  obtain ⟨p1, hp1⟩ := mailgunVerify_fails cfg m hdef
  obtain ⟨p2, hp2⟩ := sendgridVerify_fails cfg m hdef
  obtain ⟨p3, hp3⟩ := postmarkVerify_fails cfg m hdef
  obtain ⟨p4, hp4⟩ := mailjetVerify_fails cfg m hdef
  obtain ⟨p5, hp5⟩ := customerioVerify_fails cfg m hdef
  exact ⟨⟨p1, by simp [mailgunSend, hp1]⟩, ⟨p2, by simp [sendgridSend, hp2]⟩,
    ⟨p3, by simp [postmarkSend, hp3]⟩, ⟨p4, by simp [mailjetSend, hp4]⟩,
    ⟨p5, by simp [customerioSend, hp5]⟩⟩

/-- C4 witness: on the empty message (no sender, no recipients, no body) with
full credentials, every provider's Send panics without any event. -/
theorem c4_invalid_message_panics_witness :
    (∃ p, mailgunSend fsSmall (some ⟨200, "ok"⟩) cfgWitness emptyMsg = (.panicked p, [])) ∧
    (∃ p, sendgridSend fsSmall (some ⟨200, "ok"⟩) cfgWitness emptyMsg = (.panicked p, [])) ∧
    (∃ p, postmarkSend fsSmall (some ⟨200, "ok"⟩) cfgWitness emptyMsg = (.panicked p, [])) ∧
    (∃ p, mailjetSend fsSmall (some ⟨200, "ok"⟩) cfgWitness emptyMsg = (.panicked p, [])) ∧
    (∃ p, customerioSend fsSmall none "uuid-1" cfgWitness emptyMsg = (.panicked p, [])) :=
  c4_invalid_message_panics fsSmall (some ⟨200, "ok"⟩) none "uuid-1" cfgWitness emptyMsg
    (by decide)

/-- C5: for each HTTP provider, on a message that passes validation and
carries no file attachments, when the HTTP request completes with response r,
Send returns no error exactly when r's status is the provider's success status
(200 for mailgun, postmark and mailjet; 202 for sendgrid), and on any other
status it returns an error whose message is exactly the raw response body. -/
theorem c5_http_status_mapping (fs : Fs) (cfg : Configs) (m : Msg) (r : HttpResp)
    (hf : m.attachmentFiles = []) (hif : m.attachmentInlineFiles = []) :
    (mailgunVerifyParams cfg m = none → cfg.Domain ≠ "" →
      ((mailgunSend fs (some r) cfg m).1 = .sent ↔ r.status = 200) ∧
      (r.status ≠ 200 →
        (mailgunSend fs (some r) cfg m).1 = .errored (.newErr r.body))) ∧
    (sendgridVerifyParams cfg m = none →
      ((sendgridSend fs (some r) cfg m).1 = .sent ↔ r.status = 202) ∧
      (r.status ≠ 202 →
        (sendgridSend fs (some r) cfg m).1 = .errored (.newErr r.body))) ∧
    (postmarkVerifyParams cfg m = none →
      ((postmarkSend fs (some r) cfg m).1 = .sent ↔ r.status = 200) ∧
      (r.status ≠ 200 →
        (postmarkSend fs (some r) cfg m).1 = .errored (.newErr r.body))) ∧
    (mailjetVerifyParams cfg m = none →
      ((mailjetSend fs (some r) cfg m).1 = .sent ↔ r.status = 200) ∧
      (r.status ≠ 200 →
        (mailjetSend fs (some r) cfg m).1 = .errored (.newErr r.body))) := by
  refine ⟨fun hv hdom => ?_, fun hv => ?_, fun hv => ?_, fun hv => ?_⟩
  · have h : mailgunSend fs (some r) cfg m =
        (if r.status ≠ 200 then (.errored (.newErr r.body), [.netCall])
         else (.sent, [.netCall])) := by
      simp [mailgunSend, hv, hf, hif, statFiles, mailgunMaxFileSize,
        mailgunRequestPhase, openFiles, hdom]
    by_cases hs : r.status = 200 <;> simp [h, hs]
  · have h : sendgridSend fs (some r) cfg m =
        (if r.status ≠ 202 then (.errored (.newErr r.body), [.netCall])
         else (.sent, [.netCall])) := by
      simp [sendgridSend, hv, hf, hif, statFiles, sendgridMaxFileSize,
        sendgridRequestPhase, buildFileAttachments]
    by_cases hs : r.status = 202 <;> simp [h, hs]
  · have h : postmarkSend fs (some r) cfg m =
        (if r.status ≠ 200 then (.errored (.newErr r.body), [.netCall])
         else (.sent, [.netCall])) := by
      simp [postmarkSend, hv, hf, hif, statFiles, postmarkMaxFileSize,
        postmarkRequestPhase, buildFileAttachments]
    by_cases hs : r.status = 200 <;> simp [h, hs]
  · have h : mailjetSend fs (some r) cfg m =
        (if r.status ≠ 200 then (.errored (.newErr r.body), [.netCall])
         else (.sent, [.netCall])) := by
      simp [mailjetSend, hv, hf, hif, statFiles, mailjetMaxFileSize,
        mailjetRequestPhase, buildFileAttachments]
    by_cases hs : r.status = 200 <;> simp [h, hs]

/-- C5 witness: on a concrete valid attachment-free message, a 200 response
makes mailgun's Send succeed, a 500 response with body "boom" makes it return
the error "boom", and a 200 (non-202) response makes sendgrid's Send return
the error carrying the body verbatim. -/
theorem c5_http_status_mapping_witness :
    (mailgunSend fsSmall (some ⟨200, "ok"⟩) cfgWitness (msgRecipients 1)).1 = .sent ∧
    (mailgunSend fsSmall (some ⟨500, "boom"⟩) cfgWitness (msgRecipients 1)).1 =
      .errored (.newErr "boom") ∧
    (sendgridSend fsSmall (some ⟨200, "ok"⟩) cfgWitness (msgRecipients 1)).1 =
      .errored (.newErr "ok") := by
  refine ⟨?_, ?_, ?_⟩
  · exact ((c5_http_status_mapping fsSmall cfgWitness (msgRecipients 1) ⟨200, "ok"⟩
      (by decide) (by decide)).1 (by decide) (by decide)).1.mpr rfl
  · exact ((c5_http_status_mapping fsSmall cfgWitness (msgRecipients 1) ⟨500, "boom"⟩
      (by decide) (by decide)).1 (by decide) (by decide)).2 (by decide)
  · exact ((c5_http_status_mapping fsSmall cfgWitness (msgRecipients 1) ⟨200, "ok"⟩
      (by decide) (by decide)).2.1 (by decide)).2 (by decide)

/-- The stat loop performs only stat events, never a network call. -/
theorem statFiles_no_net (fs : Fs) (l : List String) (total : Nat) (evs : List Ev)
    (h : statFiles fs l = .ok (total, evs)) : Ev.netCall ∉ evs := by
  induction l generalizing total evs with
  | nil =>
    simp only [statFiles, Except.ok.injEq, Prod.mk.injEq] at h
    simp [← h.2]
  | cons f rest ih =>
    simp only [statFiles] at h
    cases hf : fs f with
    | none => rw [hf] at h; cases h
    | some bs =>
      rw [hf] at h
      cases hrest : statFiles fs rest with
      | error e => rw [hrest] at h; cases h
      | ok p =>
        obtain ⟨n, evs'⟩ := p
        rw [hrest] at h
        simp only [Except.ok.injEq, Prod.mk.injEq] at h
        rw [← h.2]
        intro hmem
        rcases List.mem_cons.mp hmem with h' | h'
        · cases h'
        · exact ih n evs' hrest h'

/-- The mailgun multipart file-open loop performs only read events, never a
network call. -/
theorem openFiles_no_net (fs : Fs) (l : List String) (evs : List Ev)
    (h : openFiles fs l = .ok evs) : Ev.netCall ∉ evs := by
  induction l generalizing evs with
  | nil =>
    simp only [openFiles, Except.ok.injEq] at h
    simp [← h]
  | cons f rest ih =>
    simp only [openFiles] at h
    cases hf : fs f with
    | none => rw [hf] at h; cases h
    | some bs =>
      rw [hf] at h
      cases hrest : openFiles fs rest with
      | error e => rw [hrest] at h; cases h
      | ok evs' =>
        rw [hrest] at h
        simp only [Except.ok.injEq] at h
        rw [← h]
        intro hmem
        rcases List.mem_cons.mp hmem with h' | h'
        · cases h'
        · exact ih evs' hrest h'

/-- C3, amended: postmark's token check and mailjet's key-pair check run at
the start of Send and panic before any attachment I/O or network call (empty
event trace); mailgun's missing domain is not caught by its start-of-Send
validation but panics while the endpoint URL is built during request
construction — after the attachment stat and open I/O, though still before
the network call. -/
theorem c3_credential_checks :
    (∀ (fs : Fs) (resp : Option HttpResp) (cfg : Configs) (m : Msg),
      cfg.AccountToken = "" → cfg.ServerToken = "" →
      postmarkSend fs resp cfg m =
        (.panicked "gomailer: for postmarkapp you must provide AccountToken or ServerToken in config",
         [])) ∧
    (∀ (fs : Fs) (resp : Option HttpResp) (cfg : Configs) (m : Msg),
      cfg.PrivateKey = "" ∨ cfg.PublicKey = "" →
      mailjetSend fs resp cfg m =
        (.panicked "gomailer: for mailjetapp you must provide PrivateKey and PublicKey in config",
         [])) ∧
    (∀ (fs : Fs) (resp : Option HttpResp) (cfg : Configs) (m : Msg)
        (total : Nat) (sevs oevs : List Ev),
      cfg.Domain = "" →
      mailgunVerifyParams cfg m = none →
      statFiles fs m.attachmentFiles = .ok (total, sevs) →
      total ≤ mailgunMaxFileSize →
      openFiles fs (m.attachmentFiles ++ m.attachmentInlineFiles) = .ok oevs →
      mailgunSend fs resp cfg m =
        (.panicked "gomailer: you must provide domain name in Config", sevs ++ oevs) ∧
      Ev.netCall ∉ sevs ++ oevs) := by
  refine ⟨?_, ?_, ?_⟩
  · intro fs resp cfg m hat hst
    simp [postmarkSend, postmarkVerifyParams, hat, hst]
  · intro fs resp cfg m hkeys
    have : (cfg.PrivateKey = "" ∨ cfg.PublicKey = "") := hkeys
    simp [mailjetSend, mailjetVerifyParams, if_pos this]
  · intro fs resp cfg m total sevs oevs hdom hv hstat hsize hopen
    constructor
    · simp [mailgunSend, hv, hstat, mailgunRequestPhase, hopen, hdom,
        show ¬(total > mailgunMaxFileSize) from by omega]
    · intro hmem
      rcases List.mem_append.mp hmem with h' | h'
      · exact statFiles_no_net fs m.attachmentFiles total sevs hstat h'
      · exact openFiles_no_net fs (m.attachmentFiles ++ m.attachmentInlineFiles) oevs hopen h'

/-- C3 counterexample: with an otherwise-valid message holding one attachment
and a configuration lacking only the mailgun domain, the validation step run
at the start of mailgun.Send passes (it never checks the domain), and Send
panics about the missing domain only after the attachment stat and read
events — so the claim that the missing-domain failure happens in start-of-Send
validation before any attachment I/O is false. -/
theorem c3_counterexample :
    mailgunVerifyParams cfgBare msgOneAttachment = none ∧
    mailgunSend fsSmall (some ⟨200, "ok"⟩) cfgBare msgOneAttachment =
      (.panicked "gomailer: you must provide domain name in Config",
       [.statF "big.bin", .readF "big.bin"]) := by
  constructor
  · decide
  · decide

/-- C3 witness: the amended theorem instantiated — postmark with no tokens and
mailjet with no keys panic with empty traces; mailgun with no domain panics
after its file I/O events, with no network call among them. -/
theorem c3_credential_checks_witness :
    postmarkSend fsSmall (some ⟨200, "ok"⟩) cfgBare emptyMsg =
      (.panicked "gomailer: for postmarkapp you must provide AccountToken or ServerToken in config",
       []) ∧
    mailjetSend fsSmall (some ⟨200, "ok"⟩) cfgBare emptyMsg =
      (.panicked "gomailer: for mailjetapp you must provide PrivateKey and PublicKey in config",
       []) ∧
    (mailgunSend fsSmall (some ⟨200, "ok"⟩) cfgBare msgOneAttachment =
      (.panicked "gomailer: you must provide domain name in Config",
       [.statF "big.bin"] ++ [.readF "big.bin"]) ∧
     Ev.netCall ∉ [Ev.statF "big.bin"] ++ [Ev.readF "big.bin"]) :=
  ⟨c3_credential_checks.1 fsSmall (some ⟨200, "ok"⟩) cfgBare emptyMsg rfl rfl,
   c3_credential_checks.2.1 fsSmall (some ⟨200, "ok"⟩) cfgBare emptyMsg (Or.inl rfl),
   c3_credential_checks.2.2 fsSmall (some ⟨200, "ok"⟩) cfgBare msgOneAttachment
     3 [.statF "big.bin"] [.readF "big.bin"] rfl (by decide) rfl (by decide)
     rfl⟩

/-- C1 fails on mailjet: its size pre-check appends `attachmentFiles` to the
checked list twice, so a message whose single attachment file holds 7500001
bytes — under the 15000000-byte mailjet ceiling, as the first two conjuncts
record — is rejected with the 15MB error before any network call, with the
file stat'ed twice. -/
theorem c1_mailjet_size_double_count :
    statFiles fsBig msgOneAttachment.attachmentFiles =
      .ok (7500001, [.statF "big.bin"]) ∧
    7500001 ≤ mailjetMaxFileSize ∧
    mailjetSend fsBig (some ⟨200, "ok"⟩) cfgWitness msgOneAttachment =
      (.errored (.newErr "gomailer: max attachment size for mailjet is 15MB"),
       [.statF "big.bin", .statF "big.bin"]) := by
  have hlen : (List.replicate 7500001 (0 : Nat)).length = 7500001 :=
    List.length_replicate 7500001 0
  have h1 : statFiles fsBig ["big.bin"] = .ok (7500001, [.statF "big.bin"]) := by
    simp only [statFiles, fsBig, hlen]
  have h2 : statFiles fsBig ["big.bin", "big.bin"] =
      .ok (15000002, [.statF "big.bin", .statF "big.bin"]) := by
    simp only [statFiles, fsBig, hlen]
  have hv : mailjetVerifyParams cfgWitness msgOneAttachment = none := by decide
  have hfiles : msgOneAttachment.attachmentFiles ++ msgOneAttachment.attachmentFiles =
      ["big.bin", "big.bin"] := rfl
  refine ⟨h1, by norm_num [mailjetMaxFileSize], ?_⟩
  simp only [mailjetSend, hv, hfiles, h2, mailjetMaxFileSize]
  rw [if_pos (by norm_num)]

/-- C7: resolving any readable file as an attachment succeeds and yields a
base64 content string that decodes back to exactly the file's bytes, a
filename equal to the path's final element, a MIME type that is the function
of the path's extension given by the mime table ("" when unrecognized), and a
ContentID equal to the filename; resolving an unreadable file fails with the
read I/O error for that path. -/
theorem c7_attachment_roundtrip :
    (∀ (fs : Fs) (path : String) (bytes : List Nat) (a : attachment),
      fs path = some bytes → (∀ x ∈ bytes, x < 256) →
      ∃ a', attachment.ReadFromFile fs path a = .ok a' ∧
        b64DecodeChunks a'.Content.data = some bytes ∧
        a'.FileName = filepathBase path ∧
        a'.contentType = mimeTypeByExtension (filepathExt path) ∧
        a'.ContentID = a'.FileName) ∧
    (∀ (fs : Fs) (path : String) (a : attachment),
      fs path = none →
      attachment.ReadFromFile fs path a = .error (.readErr path)) := by
  constructor
  · intro fs path bytes a hread hbytes
    have hok : attachment.ReadFromFile fs path a = .ok { a with contentType := mimeTypeByExtension (filepathExt path), Content := b64Encode bytes, FileName := filepathBase path, ContentID := filepathBase path } := by
      simp only [attachment.ReadFromFile, hread]
    exact ⟨_, hok, b64_roundtrip bytes hbytes, rfl, rfl, rfl⟩
  · intro fs path a hread
    simp only [attachment.ReadFromFile, hread]

/-- C7 witness: the readable file "files/hello.txt" with bytes [104, 105]
resolves to an attachment whose content decodes back to [104, 105] with the
derived names, and the unreadable path "missing.bin" fails with its read
error. -/
theorem c7_attachment_roundtrip_witness :
    (∃ a', attachment.ReadFromFile fsHello "files/hello.txt" emptyAttachment = .ok a' ∧
      b64DecodeChunks a'.Content.data = some [104, 105] ∧
      a'.FileName = filepathBase "files/hello.txt" ∧
      a'.contentType = mimeTypeByExtension (filepathExt "files/hello.txt") ∧
      a'.ContentID = a'.FileName) ∧
    attachment.ReadFromFile fsHello "missing.bin" emptyAttachment =
      .error (.readErr "missing.bin") :=
  ⟨c7_attachment_roundtrip.1 fsHello "files/hello.txt" [104, 105] emptyAttachment
     (by decide) (by decide),
   c7_attachment_roundtrip.2 fsHello "missing.bin" emptyAttachment (by decide)⟩
